import Mathlib

/-!
# Route-finder backend: a shallow embedding

This file embeds the route handlers of the Route-finder backend
(`src/unnamed/part_000`, the latest revision with a `username` column, and
`src/app.ts`, which holds two earlier four-column revisions) as pure Lean
functions over an explicit table state, and proves the behavioural claims
about them.

The `booklist` table is a `List` of rows; SQL statements become the
corresponding list operations.  The external collaborators — the `isbn`
npm package's `ISBN.parse` and the `classify2_api` client — are
parameters of each handler: `parse` stands for `ISBN.parse` (returning
`none` where the library returns `null`) and `ClassifySvc` records the
data the classification callback would be invoked with.  Request bodies
and query/cookie values are `Option String`s (`none` = the field is
absent, i.e. `undefined` in JavaScript).
-/

/-- A row of the `booklist` table in the latest revision
(`src/unnamed/part_000` lines 16–22): columns `isbn`, `title`, `author`,
`call_no`, `username`, with `isbn` the primary key. -/
structure Book where
  isbn : String
  title : String
  author : String
  call_no : String
  username : String
  deriving DecidableEq, Repr

/-- A row of the `booklist` table in the two `src/app.ts` revisions
(lines 16–21): no `username` column. -/
structure BookA where
  isbn : String
  title : String
  author : String
  call_no : String
  deriving DecidableEq, Repr

/-- JavaScript truthiness of a request-body / query field: the field is
falsy when absent (`undefined`) or the empty string. -/
def tval : Option String → Bool
  | none => false
  | some s => s ≠ ""

/-- The result of `ISBN.parse` when it does not return `null`: the
parsed identifier, exposing `asIsbn13()` (the ISBN-13 normalization) and
the `isIsbn10()` / `isIsbn13()` predicates used by the first `app.ts`
revision. -/
structure ParsedIsbn where
  asIsbn13 : String
  isIsbn10 : Bool
  isIsbn13 : Bool
  deriving DecidableEq, Repr

/-- The payload the `classify2_api` callback receives for an `"isbn"` or
`"wi"` lookup: `title`, `author` (possibly pipe-delimited) and `congress`
(the LC call number). -/
structure ClassifyData where
  title : String
  author : String
  congress : String
  deriving DecidableEq, Repr

/-- The payload of a `"title-author"` lookup; the handlers only test it
for truthiness and echo it back, so it is kept opaque. -/
structure TAData where
  raw : String
  deriving DecidableEq, Repr

/-- The classification service, recorded as the data each kind of lookup
would deliver to its callback (`classify.classify(type, ids, cb)` invokes
`cb` exactly once).  `onTitleAuthor` returns `none` where the callback
receives a falsy payload. -/
structure ClassifySvc where
  onIsbn : String → ClassifyData
  onWi : String → ClassifyData
  onTitleAuthor : Option String → Option String → Option TAData

/-- `data.author.split("|")[0]`: the prefix of the author string before
the first `|` (the whole string when it has no pipe, as in JavaScript). -/
def firstAuthor (s : String) : String :=
  String.mk (s.data.takeWhile (fun c => c ≠ '|'))

/-- `addToDatabase` of `src/unnamed/part_000` lines 79–90: a five-column
`INSERT` into `booklist`, whose `isbn` primary key makes a duplicate
insert raise a constraint error that the surrounding `try/catch` swallows,
leaving the table unchanged and telling the caller nothing. -/
def insertBook (db : List Book) (b : Book) : List Book :=
  if db.any (fun r => r.isbn == b.isbn) then db else db ++ [b]

/-- `addToDatabase` of the `src/app.ts` revisions (four columns), with the
same swallowed duplicate-key failure. -/
def insertBookA (db : List BookA) (b : BookA) : List BookA :=
  if db.any (fun r => r.isbn == b.isbn) then db else db ++ [b]

/-- A request body for the latest revision's POST routes: the fields the
handlers consult. -/
structure ReqBody where
  isbn : Option String
  name : Option String
  title : Option String
  author : Option String
  wi : Option String
  deriving DecidableEq, Repr

/-- What `POST /add` renders: `pages/add` with either the looked-up item
or the string `"failure: Invalid ISBN"`. -/
inductive AddResp where
  | page (item : Book)
  | invalid
  deriving DecidableEq, Repr

/-- The reason carried by a `/api/search` failure payload. -/
inductive FailReason where
  | invalidIsbn
  | emptyResult (data : ClassifyData)
  | noData
  | noValues
  deriving DecidableEq, Repr

/-- The JSON replies of `POST /api/search`. -/
inductive SearchResp where
  | success (book : Book)
  | taSuccess (data : TAData)
  | failure (reason : FailReason)
  deriving DecidableEq, Repr

/-- The JSON reply of `POST /api/remove`. -/
inductive RemoveResp where
  | success
  deriving DecidableEq, Repr

/-- The JSON replies of `GET /api/books` in `src/unnamed/part_000`:
the row list, the explicit `{'error': 'No Username Provided'}` payload,
or the generic `{"Error": err}` payload sent by the `catch` block. -/
inductive BooksResp where
  | results (rows : List Book)
  | noUsername
  | caughtError
  deriving DecidableEq, Repr

/-- `POST /add` of `src/unnamed/part_000` lines 163–201.  Guard
`req.body.isbn`; `ISBN.parse`; on a parse the item is built with
`isbn = isbnSearch.asIsbn13()` and `username = req.cookies.name`, classify
is called on the normalized ISBN, the callback fills in
`title` / `author.split("|")[0]` / `congress`, inserts when the title is
non-empty, and renders the item either way; a failed parse renders
`"failure: Invalid ISBN"`; a falsy `isbn` field sends no reply at all. -/
def addPost (parse : String → Option ParsedIsbn) (svc : ClassifySvc)
    (db : List Book) (body : ReqBody) (cookieName : String) :
    List Book × Option AddResp :=
  if tval body.isbn then
    match parse (body.isbn.getD "") with
    | some p =>
      let data := svc.onIsbn p.asIsbn13
      let item : Book :=
        { isbn := p.asIsbn13, title := data.title,
          author := firstAuthor data.author, call_no := data.congress,
          username := cookieName }
      if item.title ≠ "" then (insertBook db item, some (.page item))
      else (db, some (.page item))
    | none => (db, some .invalid)
  else (db, none)

/-- `POST /api/search` of `src/unnamed/part_000` lines 258–347.  Four
branches: `isbn && name` (parse, classify by the raw body ISBN, store the
item keyed by `asIsbn13()` when the title is non-empty, else echo the data
in a failure payload; a failed parse answers `"Invalid ISBN"`),
`title || author` (classify `"title-author"`, success iff the callback
payload is truthy), `wi && name` (like the ISBN branch but with an empty
`isbn` column), and otherwise `"No Values Provided"`. -/
def apiSearch (parse : String → Option ParsedIsbn) (svc : ClassifySvc)
    (db : List Book) (body : ReqBody) :
    List Book × Option SearchResp :=
  if tval body.isbn && tval body.name then
    match parse (body.isbn.getD "") with
    | some p =>
      let data := svc.onIsbn (body.isbn.getD "")
      let item : Book :=
        { isbn := p.asIsbn13, title := data.title,
          author := firstAuthor data.author, call_no := data.congress,
          username := body.name.getD "" }
      if item.title ≠ "" then (insertBook db item, some (.success item))
      else (db, some (.failure (.emptyResult data)))
    | none => (db, some (.failure .invalidIsbn))
  else if tval body.title || tval body.author then
    match svc.onTitleAuthor body.title body.author with
    | some d => (db, some (.taSuccess d))
    | none => (db, some (.failure .noData))
  else if tval body.wi && tval body.name then
    let data := svc.onWi (body.wi.getD "")
    let item : Book :=
      { isbn := "", title := data.title,
        author := firstAuthor data.author, call_no := data.congress,
        username := body.name.getD "" }
    if item.title ≠ "" then (insertBook db item, some (.success item))
    else (db, some (.failure (.emptyResult data)))
  else (db, some (.failure .noValues))

/-- `POST /api/remove` of `src/unnamed/part_000` lines 357–382: when
`req.body.name` is truthy, `DELETE FROM booklist WHERE username = $1` and
a success JSON; a falsy `name` sends no reply at all. -/
def apiRemove (db : List Book) (body : ReqBody) :
    List Book × Option RemoveResp :=
  if tval body.name then
    (db.filter (fun b => b.username != body.name.getD ""), some .success)
  else (db, none)

/-- `GET /api/books` of `src/unnamed/part_000` lines 220–248: the query
`SELECT * FROM booklist WHERE username = $1` runs with `req.query.name`
(`undefined` is sent as SQL `NULL` when the parameter is absent); then
`req.query.name.length > 0` chooses between the row list and the
`No Username Provided` payload — when the parameter is absent that
`.length` access throws a `TypeError`, which the surrounding `catch`
answers with the generic `{"Error": err}` payload. -/
def apiBooks (db : List Book) (qname : Option String) : BooksResp :=
  match qname with
  | none => .caughtError
  | some name =>
    if name.length > 0 then .results (db.filter (fun b => b.username == name))
    else .noUsername

/-- `GET /route` of `src/unnamed/part_000` lines 136–150: renders
`pages/route` with `SELECT * FROM booklist WHERE username = $1` for the
`name` cookie, with no `ORDER BY`; an absent cookie is sent as SQL `NULL`,
which matches no row. -/
def routeGet (db : List Book) (cookieName : Option String) : List Book :=
  match cookieName with
  | some n => db.filter (fun b => b.username == n)
  | none => []

/-- What the `src/app.ts` `POST /add` revisions render. -/
inductive AddARes where
  | page (item : BookA)
  | invalid
  deriving DecidableEq, Repr

/-- `POST /add` of the first `src/app.ts` revision, lines 143–180.  Guard
`req.body.isbn`; `ISBN.parse`, then `isbnSearch.isIsbn10() || isbnSearch.isIsbn13()`
– when `ISBN.parse` returned `null` that method call throws a `TypeError`
out of the async handler, so no reply is ever sent (`none`).  On an
accepted form, classify runs on the raw body ISBN and the callback stores
the book (raw `isbn`, whole `author` string – no pipe split in this
revision) when the title is non-empty, rendering the book either way. -/
def addPostRevA (parse : String → Option ParsedIsbn) (svc : ClassifySvc)
    (db : List BookA) (isbnField : Option String) :
    List BookA × Option AddARes :=
  if tval isbnField then
    match parse (isbnField.getD "") with
    | some p =>
      if p.isIsbn10 || p.isIsbn13 then
        let data := svc.onIsbn (isbnField.getD "")
        let book : BookA :=
          { isbn := isbnField.getD "", title := data.title,
            author := data.author, call_no := data.congress }
        if book.title ≠ "" then (insertBookA db book, some (.page book))
        else (db, some (.page book))
      else (db, some .invalid)
    | none => (db, none)
  else (db, none)

/-- `POST /add` of the second `src/app.ts` revision, lines 501–542: like
the latest revision but over the four-column table – `isbn` is stored as
`isbnSearch.asIsbn13()`, classify runs on the normalized ISBN, and the
author string is cut at the first pipe. -/
def addPostRevB (parse : String → Option ParsedIsbn) (svc : ClassifySvc)
    (db : List BookA) (isbnField : Option String) :
    List BookA × Option AddARes :=
  if tval isbnField then
    match parse (isbnField.getD "") with
    | some p =>
      let data := svc.onIsbn p.asIsbn13
      let item : BookA :=
        { isbn := p.asIsbn13, title := data.title,
          author := firstAuthor data.author, call_no := data.congress }
      if item.title ≠ "" then (insertBookA db item, some (.page item))
      else (db, some (.page item))
    | none => (db, some .invalid)
  else (db, none)

/-- `GET /route` of the first `src/app.ts` revision, lines 117–130:
`SELECT * FROM booklist ORDER BY call_no` over the whole table, no
username filter; `ORDER BY` on a string column is embedded as a sort by
`call_no ≤ call_no` (Mathlib's insertion sort). -/
def routeGetRevA (db : List BookA) : List BookA :=
  List.insertionSort (fun a b => a.call_no ≤ b.call_no) db

/-- `POST /api/remove` of the first `src/app.ts` revision, lines 297–315:
when `req.body.isbn` is truthy it runs
`DELETE FROM booklist WHERE isbn=VALUES($1)` – SQL that is invalid for a
`DELETE`, so the query throws, the `catch` only logs, and the success JSON
is sent anyway with the table unchanged; a falsy `isbn` sends no reply. -/
def apiRemoveRevA (db : List BookA) (isbnField : Option String) :
    List BookA × Option RemoveResp :=
  if tval isbnField then (db, some .success)
  else (db, none)

/-- One request to a `src/unnamed/part_000` route, with the inputs the
handler consults (body fields, cookie or query username). -/
inductive Op where
  | add (body : ReqBody) (cookieName : String)
  | search (body : ReqBody)
  | remove (body : ReqBody)
  | books (qname : Option String)
  | route (cookieName : Option String)
  deriving Repr

/-- The `booklist` table after one request to the latest revision:
`GET` routes leave it unchanged. -/
def applyOp (parse : String → Option ParsedIsbn) (svc : ClassifySvc)
    (op : Op) (db : List Book) : List Book :=
  match op with
  | .add body ck => (addPost parse svc db body ck).1
  | .search body => (apiSearch parse svc db body).1
  | .remove body => (apiRemove db body).1
  | .books _ => db
  | .route _ => db

/-- How many `booklist` rows of a four-column table carry a given ISBN. -/
def countIsbnA (db : List BookA) (s : String) : Nat :=
  (db.filter (fun b => b.isbn == s)).length

/-- A concrete stand-in for `ISBN.parse` that accepts every string and
normalizes it to one ISBN-13, used to evaluate the handlers on concrete
requests. -/
def parseSome : String → Option ParsedIsbn :=
  fun _ => some { asIsbn13 := "9780380807345", isIsbn10 := true, isIsbn13 := false }

/-- A concrete stand-in for `ISBN.parse` that rejects every string
(`null` from the library). -/
def parseNone : String → Option ParsedIsbn :=
  fun _ => none

/-- A concrete classification service whose ISBN lookup succeeds with a
non-empty title and a pipe-delimited author but an empty `congress`
field. -/
def svcNoCall : ClassifySvc where
  onIsbn := fun _ => { title := "Lirael", author := "Nix, Garth|Williams, S.", congress := "" }
  onWi := fun _ => { title := "", author := "", congress := "" }
  onTitleAuthor := fun _ _ => none

/-- A concrete classification service on which every lookup fails
(empty title, falsy title-author payload). -/
def svcMiss : ClassifySvc where
  onIsbn := fun _ => { title := "", author := "", congress := "" }
  onWi := fun _ => { title := "", author := "", congress := "" }
  onTitleAuthor := fun _ _ => none

/-- A concrete classification service whose lookups succeed with full
data. -/
def svcHit : ClassifySvc where
  onIsbn := fun _ => { title := "Lirael", author := "Nix, Garth|Williams, S.", congress := "PZ7.N647" }
  onWi := fun _ => { title := "Sabriel", author := "Nix, Garth", congress := "PZ7.N646" }
  onTitleAuthor := fun _ _ => some { raw := "results" }

instance : IsTotal BookA (fun a b => a.call_no ≤ b.call_no) :=
  ⟨fun a b => le_total a.call_no b.call_no⟩

instance : IsTrans BookA (fun a b => a.call_no ≤ b.call_no) :=
  ⟨fun _ _ _ h h' => le_trans h h'⟩

/-! ## Helper lemmas -/

/-- The swallowed-error insert either leaves the table unchanged
(duplicate key) or appends exactly the new row. -/
theorem insertBook_eq_or (db : List Book) (b : Book) :
    insertBook db b = db ∨ insertBook db b = db ++ [b] := by
  unfold insertBook
  split
  · exact Or.inl rfl
  · exact Or.inr rfl

/-- Four-column variant of `insertBook_eq_or`. -/
theorem insertBookA_eq_or (db : List BookA) (b : BookA) :
    insertBookA db b = db ∨ insertBookA db b = db ++ [b] := by
  unfold insertBookA
  split
  · exact Or.inl rfl
  · exact Or.inr rfl

/-- A member of the table after an insert is an old row or the new one. -/
theorem mem_insertBook {db : List Book} {b x : Book}
    (hx : x ∈ insertBook db b) : x ∈ db ∨ x = b := by
  rcases insertBook_eq_or db b with h | h <;> rw [h] at hx
  · exact Or.inl hx
  · rcases List.mem_append.mp hx with h' | h'
    · exact Or.inl h'
    · exact Or.inr (List.mem_singleton.mp h')

/-- A truthy optional field is a non-empty string. -/
theorem tval_eq_true {o : Option String} (h : tval o = true) :
    o.getD "" ≠ "" ∧ o = some (o.getD "") := by
  cases o with
  | none => simp [tval] at h
  | some s =>
    simp only [tval, ne_eq, decide_eq_true_eq] at h
    exact ⟨h, rfl⟩

/-! ## C1: `/api/remove` deletes exactly the named user's rows -/

/-- C1: for every POST to `/api/remove` with a non-empty `name` body
field, the delete removes every row of `booklist` whose `username` equals
that name and leaves every other row unchanged (the surviving table is a
sublist of the original, and a row survives iff it was present and owned
by a different username); the handler answers with the success JSON. -/
theorem apiRemove_removes_target_only (db : List Book) (body : ReqBody)
    (h : tval body.name = true) :
    (apiRemove db body).2 = some .success ∧
    ((apiRemove db body).1).Sublist db ∧
    (∀ b, b ∈ (apiRemove db body).1 ↔ b ∈ db ∧ b.username ≠ body.name.getD "") := by
  simp only [apiRemove, h, if_true]
  refine ⟨trivial, List.filter_sublist db, fun b => ?_⟩
  simp [List.mem_filter]

/-- C1 witness: on a concrete two-user table, removing `"alice"` keeps
exactly Bob's row. -/
theorem apiRemove_removes_target_only_witness :
    (⟨"i2", "t2", "a2", "c2", "bob"⟩ : Book) ∈
      (apiRemove [⟨"i1", "t1", "a1", "c1", "alice"⟩, ⟨"i2", "t2", "a2", "c2", "bob"⟩]
        ⟨none, some "alice", none, none, none⟩).1 ∧
    ¬ (⟨"i1", "t1", "a1", "c1", "alice"⟩ : Book) ∈
      (apiRemove [⟨"i1", "t1", "a1", "c1", "alice"⟩, ⟨"i2", "t2", "a2", "c2", "bob"⟩]
        ⟨none, some "alice", none, none, none⟩).1 := by
  have h := apiRemove_removes_target_only
    [⟨"i1", "t1", "a1", "c1", "alice"⟩, ⟨"i2", "t2", "a2", "c2", "bob"⟩]
    ⟨none, some "alice", none, none, none⟩ (by decide)
  constructor
  · exact (h.2.2 _).mpr (by decide)
  · intro hx
    exact absurd ((h.2.2 _).mp hx) (by decide)

/-! ## C9: guard-false requests get no reply -/

/-- C9: a POST to `/add` whose body lacks a truthy `isbn` field, and a
POST to `/api/remove` whose body lacks its required field (`name` in the
latest revision, `isbn` in the first `app.ts` revision), take the handler
past its only guard without any branch sending a reply: the request is
left unanswered and the table untouched. -/
theorem guard_false_no_reply (parse : String → Option ParsedIsbn)
    (svc : ClassifySvc) (db : List Book) (dbA : List BookA)
    (body : ReqBody) (ck : String) (isbnF : Option String)
    (h1 : tval body.isbn = false) (h2 : tval body.name = false)
    (h3 : tval isbnF = false) :
    addPost parse svc db body ck = (db, none) ∧
    apiRemove db body = (db, none) ∧
    apiRemoveRevA dbA isbnF = (dbA, none) := by
  refine ⟨?_, ?_, ?_⟩
  · unfold addPost; rw [h1]; simp
  · unfold apiRemove; rw [h2]; simp
  · unfold apiRemoveRevA; rw [h3]; simp

/-- C9 witness: a body with every field absent gets no reply from
`/add` or either `/api/remove`. -/
theorem guard_false_no_reply_witness :
    addPost parseSome svcHit [] ⟨none, none, none, none, none⟩ "u" = ([], none) ∧
    apiRemove [] ⟨none, none, none, none, none⟩ = ([], none) ∧
    apiRemoveRevA [] none = ([], none) :=
  guard_false_no_reply parseSome svcHit [] [] ⟨none, none, none, none, none⟩ "u" none
    (by decide) (by decide) (by decide)

/-! ## C10: `/api/search` reports success even when the insert failed -/

/-- C10: for every POST to `/api/search` with truthy `isbn` and `name`, a
successful parse and a classification with non-empty title, the reply is
the success payload with the looked-up book — and when the table already
holds a row with that ISBN-13 (so the `INSERT` hit the primary-key
constraint and `addToDatabase` swallowed the error), the table is left
unchanged while the same success payload is still sent. -/
theorem apiSearch_success_despite_dup (parse : String → Option ParsedIsbn)
    (svc : ClassifySvc) (db : List Book) (body : ReqBody) (p : ParsedIsbn)
    (h1 : tval body.isbn = true) (h2 : tval body.name = true)
    (hp : parse (body.isbn.getD "") = some p)
    (ht : (svc.onIsbn (body.isbn.getD "")).title ≠ "") :
    (apiSearch parse svc db body).2 = some (.success
      { isbn := p.asIsbn13,
        title := (svc.onIsbn (body.isbn.getD "")).title,
        author := firstAuthor (svc.onIsbn (body.isbn.getD "")).author,
        call_no := (svc.onIsbn (body.isbn.getD "")).congress,
        username := body.name.getD "" }) ∧
    (db.any (fun r => r.isbn == p.asIsbn13) = true →
      (apiSearch parse svc db body).1 = db) := by
  simp only [apiSearch, h1, h2, hp, Bool.and_self, if_true]
  rw [if_pos ht]
  exact ⟨rfl, fun hdup => by simp [insertBook, hdup]⟩

/-- C10 witness: with the table already holding the ISBN-13 the lookup
normalizes to, the search still answers success and the table is
unchanged. -/
theorem apiSearch_success_despite_dup_witness :
    (apiSearch parseSome svcHit
      [⟨"9780380807345", "Lirael", "Nix, Garth", "PZ7.N647", "alice"⟩]
      ⟨some "0380807343", some "alice", none, none, none⟩).1 =
      [⟨"9780380807345", "Lirael", "Nix, Garth", "PZ7.N647", "alice"⟩] ∧
    (apiSearch parseSome svcHit
      [⟨"9780380807345", "Lirael", "Nix, Garth", "PZ7.N647", "alice"⟩]
      ⟨some "0380807343", some "alice", none, none, none⟩).2 =
      some (.success ⟨"9780380807345", "Lirael", "Nix, Garth", "PZ7.N647", "alice"⟩) := by
  have h := apiSearch_success_despite_dup parseSome svcHit
    [⟨"9780380807345", "Lirael", "Nix, Garth", "PZ7.N647", "alice"⟩]
    ⟨some "0380807343", some "alice", none, none, none⟩
    ⟨"9780380807345", true, false⟩ (by decide) (by decide) rfl (by decide)
  refine ⟨h.2 (by decide), ?_⟩
  rw [h.1]
  decide

/-! ## C3: rows are only ever created by a successful classification -/

/-- `/add` leaves the table unchanged or appends one classified row with
a non-empty title. -/
theorem addPost_db_shape (parse : String → Option ParsedIsbn)
    (svc : ClassifySvc) (db : List Book) (body : ReqBody) (ck : String) :
    (addPost parse svc db body ck).1 = db ∨
    ∃ item : Book, item.title ≠ "" ∧
      (∃ s, item.title = (svc.onIsbn s).title ∨ item.title = (svc.onWi s).title) ∧
      (addPost parse svc db body ck).1 = db ++ [item] := by
  unfold addPost
  split
  · cases hp : parse (body.isbn.getD "") with
    | none => simp
    | some p =>
      simp only []
      split
      case isTrue h =>
        rcases insertBook_eq_or db _ with h' | h'
        · exact Or.inl h'
        · exact Or.inr ⟨_, h, ⟨p.asIsbn13, Or.inl rfl⟩, h'⟩
      case isFalse h => exact Or.inl rfl
  · exact Or.inl rfl

/-- `/api/search` leaves the table unchanged or appends one classified
row with a non-empty title. -/
theorem apiSearch_db_shape (parse : String → Option ParsedIsbn)
    (svc : ClassifySvc) (db : List Book) (body : ReqBody) :
    (apiSearch parse svc db body).1 = db ∨
    ∃ item : Book, item.title ≠ "" ∧
      (∃ s, item.title = (svc.onIsbn s).title ∨ item.title = (svc.onWi s).title) ∧
      (apiSearch parse svc db body).1 = db ++ [item] := by
  unfold apiSearch
  split
  · cases hp : parse (body.isbn.getD "") with
    | none => simp
    | some p =>
      simp only []
      split
      case isTrue h =>
        rcases insertBook_eq_or db _ with h' | h'
        · exact Or.inl h'
        · exact Or.inr ⟨_, h, ⟨body.isbn.getD "", Or.inl rfl⟩, h'⟩
      case isFalse h => exact Or.inl rfl
  · split
    · cases svc.onTitleAuthor body.title body.author <;> simp
    · split
      · simp only []
        split
        case isTrue h =>
          rcases insertBook_eq_or db _ with h' | h'
          · exact Or.inl h'
          · exact Or.inr ⟨_, h, ⟨body.wi.getD "", Or.inr rfl⟩, h'⟩
        case isFalse h => exact Or.inl rfl
      · exact Or.inl rfl

/-- C3: across every route of the latest revision, the `booklist` table
only ever changes by surviving rows staying exactly as they were (a
sublist: deletes keep rows intact, nothing is updated in place) or by the
add/search-classify flow appending a single new row whose title came from
a classification callback and is non-empty — an empty title never
produces a row. -/
theorem booklist_insert_only_classified (parse : String → Option ParsedIsbn)
    (svc : ClassifySvc) (op : Op) (db : List Book) :
    (applyOp parse svc op db).Sublist db ∨
    (∃ item : Book, item.title ≠ "" ∧
      (∃ s, item.title = (svc.onIsbn s).title ∨ item.title = (svc.onWi s).title) ∧
      applyOp parse svc op db = db ++ [item] ∧
      ((∃ body ck, op = .add body ck) ∨ (∃ body, op = .search body))) := by
  cases op with
  | add body ck =>
    rcases addPost_db_shape parse svc db body ck with h | ⟨item, h1, h2, h3⟩
    · exact Or.inl (by rw [applyOp, h])
    · exact Or.inr ⟨item, h1, h2, by rw [applyOp, h3], Or.inl ⟨body, ck, rfl⟩⟩
  | search body =>
    rcases apiSearch_db_shape parse svc db body with h | ⟨item, h1, h2, h3⟩
    · exact Or.inl (by rw [applyOp, h])
    · exact Or.inr ⟨item, h1, h2, by rw [applyOp, h3], Or.inr ⟨body, rfl⟩⟩
  | remove body =>
    left
    show (apiRemove db body).1.Sublist db
    unfold apiRemove
    split
    · exact List.filter_sublist db
    · exact List.Sublist.refl db
  | books qname => exact Or.inl (List.Sublist.refl db)
  | route ck => exact Or.inl (List.Sublist.refl db)

/-! ## C5: every `/api/search` failure case gets a JSON failure payload -/

/-- C5: `POST /api/search` (latest revision) always answers, and each of
its failure cases — a submitted ISBN the library cannot parse, an empty
classification result on the ISBN or work-id path, a falsy title-author
payload, and a body matching none of the accepted field combinations —
answers with a failure payload carrying a reason, never a success
payload. -/
theorem apiSearch_failure_paths (parse : String → Option ParsedIsbn)
    (svc : ClassifySvc) (db : List Book) (body : ReqBody) :
    ((apiSearch parse svc db body).2).isSome = true ∧
    ((tval body.isbn && tval body.name) = true →
      parse (body.isbn.getD "") = none →
      (apiSearch parse svc db body).2 = some (.failure .invalidIsbn)) ∧
    ((tval body.isbn && tval body.name) = true →
      ∀ p, parse (body.isbn.getD "") = some p →
      (svc.onIsbn (body.isbn.getD "")).title = "" →
      (apiSearch parse svc db body).2 =
        some (.failure (.emptyResult (svc.onIsbn (body.isbn.getD ""))))) ∧
    ((tval body.isbn && tval body.name) = false →
      (tval body.title || tval body.author) = true →
      svc.onTitleAuthor body.title body.author = none →
      (apiSearch parse svc db body).2 = some (.failure .noData)) ∧
    ((tval body.isbn && tval body.name) = false →
      (tval body.title || tval body.author) = false →
      (tval body.wi && tval body.name) = true →
      (svc.onWi (body.wi.getD "")).title = "" →
      (apiSearch parse svc db body).2 =
        some (.failure (.emptyResult (svc.onWi (body.wi.getD ""))))) ∧
    ((tval body.isbn && tval body.name) = false →
      (tval body.title || tval body.author) = false →
      (tval body.wi && tval body.name) = false →
      (apiSearch parse svc db body).2 = some (.failure .noValues)) := by
  refine ⟨?_, ?_, ?_, ?_, ?_, ?_⟩
  · unfold apiSearch
    split
    · cases parse (body.isbn.getD "") with
      | none => simp
      | some p =>
        simp only []
        split <;> simp
    · split
      · cases svc.onTitleAuthor body.title body.author <;> simp
      · split
        · simp only []
          split <;> simp
        · simp
  · intro hg hp
    simp [apiSearch, hg, hp]
  · intro hg p hp ht
    simp [apiSearch, hg, hp, ht]
  · intro hg ht hn
    simp [apiSearch, hg, ht, hn]
  · intro hg ht hw hti
    simp [apiSearch, hg, ht, hw, hti]
  · intro hg ht hw
    simp [apiSearch, hg, ht, hw]

/-- C5 witness: an unparseable ISBN with a username gets exactly the
`Invalid ISBN` failure payload. -/
theorem apiSearch_failure_paths_witness :
    (apiSearch parseNone svcMiss []
      ⟨some "not-an-isbn", some "u", none, none, none⟩).2 =
      some (.failure .invalidIsbn) :=
  (apiSearch_failure_paths parseNone svcMiss []
    ⟨some "not-an-isbn", some "u", none, none, none⟩).2.1 (by decide) rfl

/-! ## C6: ISBN validation and ISBN-13 normalization -/

/-- Four-column variant of `mem_insertBook`. -/
theorem mem_insertBookA {db : List BookA} {b x : BookA}
    (hx : x ∈ insertBookA db b) : x ∈ db ∨ x = b := by
  rcases insertBookA_eq_or db b with h | h <;> rw [h] at hx
  · exact Or.inl hx
  · rcases List.mem_append.mp hx with h' | h'
    · exact Or.inl h'
    · exact Or.inr (List.mem_singleton.mp h')

/-- C6: every `/add` and `/api/search` request carrying an ISBN is gated
on `ISBN.parse`; in the latest revision every row those handlers add — and
the item the `/add` page renders or the search success payload carries —
has the ISBN-13 normalization `asIsbn13()` of the submitted identifier in
its `isbn` column, and a failed parse adds nothing and reports an invalid
ISBN; in the first `app.ts` revision a parsed identifier proceeds to
classification exactly when the library reports it as ISBN-10 or
ISBN-13. -/
theorem isbn_validated_normalized (parse : String → Option ParsedIsbn)
    (svc : ClassifySvc) (db : List Book) (dbA : List BookA) (body : ReqBody)
    (ck : String) (hi : tval body.isbn = true) :
    (∀ p, parse (body.isbn.getD "") = some p →
      (∀ b ∈ (addPost parse svc db body ck).1, b ∈ db ∨ b.isbn = p.asIsbn13) ∧
      (∀ item, (addPost parse svc db body ck).2 = some (.page item) →
        item.isbn = p.asIsbn13) ∧
      (tval body.name = true →
        (∀ b ∈ (apiSearch parse svc db body).1, b ∈ db ∨ b.isbn = p.asIsbn13) ∧
        (∀ item, (apiSearch parse svc db body).2 = some (.success item) →
          item.isbn = p.asIsbn13)) ∧
      ((p.isIsbn10 || p.isIsbn13) = false →
        addPostRevA parse svc dbA body.isbn = (dbA, some .invalid)) ∧
      ((p.isIsbn10 || p.isIsbn13) = true →
        (addPostRevA parse svc dbA body.isbn).2 = some (.page
          { isbn := body.isbn.getD "",
            title := (svc.onIsbn (body.isbn.getD "")).title,
            author := (svc.onIsbn (body.isbn.getD "")).author,
            call_no := (svc.onIsbn (body.isbn.getD "")).congress }))) ∧
    (parse (body.isbn.getD "") = none →
      (addPost parse svc db body ck).1 = db ∧
      (addPost parse svc db body ck).2 = some .invalid ∧
      (tval body.name = true → (apiSearch parse svc db body).1 = db ∧
        (apiSearch parse svc db body).2 = some (.failure .invalidIsbn))) := by
  constructor
  · intro p hp
    refine ⟨?_, ?_, ?_, ?_, ?_⟩
    · intro b hb
      revert hb
      simp only [addPost, hi, hp, if_true]
      split
      · intro hb
        rcases mem_insertBook hb with h' | h'
        · exact Or.inl h'
        · exact Or.inr (by rw [h'])
      · exact fun hb => Or.inl hb
    · intro item hitem
      revert hitem
      simp only [addPost, hi, hp, if_true]
      split <;> intro hitem <;>
        · simp only [Option.some.injEq, AddResp.page.injEq] at hitem
          rw [← hitem]
    · intro hn
      have hg : (tval body.isbn && tval body.name) = true := by rw [hi, hn]; rfl
      constructor
      · intro b hb
        revert hb
        simp only [apiSearch, hg, hp, if_true]
        split
        · intro hb
          rcases mem_insertBook hb with h' | h'
          · exact Or.inl h'
          · exact Or.inr (by rw [h'])
        · exact fun hb => Or.inl hb
      · intro item hitem
        revert hitem
        simp only [apiSearch, hg, hp, if_true]
        split <;> intro hitem <;>
          simp only [Option.some.injEq, SearchResp.success.injEq,
            reduceCtorEq] at hitem
        rw [← hitem]
    · intro h1013
      simp [addPostRevA, hi, hp, h1013]
    · intro h1013
      simp only [addPostRevA, hi, hp, h1013, if_true]
      split <;> rfl
  · intro hp
    refine ⟨?_, ?_, ?_⟩
    · simp [addPost, hi, hp]
    · simp [addPost, hi, hp]
    · intro hn
      have hg : (tval body.isbn && tval body.name) = true := by rw [hi, hn]; rfl
      exact ⟨by simp [apiSearch, hg, hp], by simp [apiSearch, hg, hp]⟩

/-- C6 witness: a string `ISBN.parse` rejects leaves the table unchanged
and renders the invalid-ISBN failure. -/
theorem isbn_validated_normalized_witness :
    (addPost parseNone svcHit [] ⟨some "zzz", none, none, none, none⟩ "u").1 = [] ∧
    (addPost parseNone svcHit [] ⟨some "zzz", none, none, none, none⟩ "u").2 =
      some .invalid := by
  have h := (isbn_validated_normalized parseNone svcHit [] []
    ⟨some "zzz", none, none, none, none⟩ "u" (by decide)).2 rfl
  exact ⟨h.1, h.2.1⟩

/-! ## C7: only the first pipe-separated author segment is stored -/

/-- The character at which `dropWhile (· ≠ '|')` resumes, if any, is the
pipe itself: `firstAuthor` cuts exactly at the first `|`. -/
theorem head_dropWhile_pipe (l : List Char) (c : Char)
    (h : (l.dropWhile (fun c => c ≠ '|')).head? = some c) : c = '|' := by
  induction l with
  | nil => simp [List.dropWhile] at h
  | cons a t ih =>
    rw [List.dropWhile_cons] at h
    split at h
    case isTrue hb => exact ih h
    case isFalse hb =>
      simp only [List.head?_cons, Option.some.injEq] at h
      rw [← h]
      simpa using hb

/-- C7: `firstAuthor` is exactly the first pipe-separated segment of the
classification author string — a pipe-free prefix after which the
remainder (when non-empty) starts with `|` — and every row the
pipe-splitting revisions add through `/add` (latest and second `app.ts`
revision) or `/api/search` carries `firstAuthor` of the author string the
classification callback delivered. -/
theorem author_first_segment (parse : String → Option ParsedIsbn)
    (svc : ClassifySvc) (db : List Book) (dbA : List BookA) (body : ReqBody)
    (ck : String) (isbnF : Option String) (s : String) :
    (s.data = (firstAuthor s).data ++ s.data.dropWhile (fun c => c ≠ '|') ∧
      (∀ c ∈ (firstAuthor s).data, c ≠ '|') ∧
      (∀ c, (s.data.dropWhile (fun c => c ≠ '|')).head? = some c → c = '|')) ∧
    (∀ p, tval body.isbn = true → parse (body.isbn.getD "") = some p →
      (∀ b ∈ (addPost parse svc db body ck).1,
        b ∈ db ∨ b.author = firstAuthor (svc.onIsbn p.asIsbn13).author) ∧
      (tval body.name = true →
        ∀ b ∈ (apiSearch parse svc db body).1,
          b ∈ db ∨ b.author = firstAuthor (svc.onIsbn (body.isbn.getD "")).author)) ∧
    (∀ q, tval isbnF = true → parse (isbnF.getD "") = some q →
      ∀ b ∈ (addPostRevB parse svc dbA isbnF).1,
        b ∈ dbA ∨ b.author = firstAuthor (svc.onIsbn q.asIsbn13).author) := by
  refine ⟨⟨?_, ?_, head_dropWhile_pipe s.data⟩, ?_, ?_⟩
  · show s.data = s.data.takeWhile (fun c => c ≠ '|') ++ _
    rw [List.takeWhile_append_dropWhile]
  · intro c hc
    have h := List.mem_takeWhile_imp hc
    simpa using h
  · intro p hi hp
    constructor
    · intro b hb
      revert hb
      simp only [addPost, hi, hp, if_true]
      split
      · intro hb
        rcases mem_insertBook hb with h' | h'
        · exact Or.inl h'
        · exact Or.inr (by rw [h'])
      · exact fun hb => Or.inl hb
    · intro hn b hb
      have hg : (tval body.isbn && tval body.name) = true := by rw [hi, hn]; rfl
      revert hb
      simp only [apiSearch, hg, hp, if_true]
      split
      · intro hb
        rcases mem_insertBook hb with h' | h'
        · exact Or.inl h'
        · exact Or.inr (by rw [h'])
      · exact fun hb => Or.inl hb
  · intro q hi hq b hb
    revert hb
    simp only [addPostRevB, hi, hq, if_true]
    split
    · intro hb
      rcases mem_insertBookA hb with h' | h'
      · exact Or.inl h'
      · exact Or.inr (by rw [h'])
    · exact fun hb => Or.inl hb

/-- C7 witness: on a concrete lookup whose author field is
`"Nix, Garth|Williams, S."`, the row `/add` writes carries only
`"Nix, Garth"`. -/
theorem author_first_segment_witness :
    (⟨"9780380807345", "Lirael", "Nix, Garth", "PZ7.N647", "u"⟩ : Book) ∈
        ([] : List Book) ∨
      (⟨"9780380807345", "Lirael", "Nix, Garth", "PZ7.N647", "u"⟩ : Book).author =
        firstAuthor "Nix, Garth|Williams, S." := by
  have h := ((author_first_segment parseSome svcHit []
      ([] : List BookA) ⟨some "0380807343", none, none, none, none⟩ "u" none
      "x").2.1 ⟨"9780380807345", true, false⟩ (by decide) rfl).1
  have hm : (⟨"9780380807345", "Lirael", "Nix, Garth", "PZ7.N647", "u"⟩ : Book) ∈
      (addPost parseSome svcHit []
        ⟨some "0380807343", none, none, none, none⟩ "u").1 := by decide
  have := h _ hm
  simpa [svcHit] using this

/-! ## C2: `/add` stores at most one row per request -/

/-- Appending one row changes the per-ISBN row count by one for its own
ISBN and leaves every other count unchanged; a swallowed duplicate insert
changes nothing. -/
theorem countIsbnA_insert (db : List BookA) (b : BookA) (s : String) :
    countIsbnA (insertBookA db b) s = countIsbnA db s ∨
    countIsbnA (insertBookA db b) s = countIsbnA db s + 1 := by
  rcases insertBookA_eq_or db b with h | h <;> rw [h]
  · exact Or.inl rfl
  · unfold countIsbnA
    rw [List.filter_append, List.length_append]
    have hlen : (List.filter (fun r => r.isbn == s) [b]).length ≤ 1 :=
      le_trans (List.length_filter_le _ _) (by simp)
    omega

/-- C2 counterexample: a POST to `/add` (first `app.ts` revision) whose
classification succeeds with a non-empty title but an empty `congress`
field writes one row whose `call_no` is empty — the written row does not
have a non-empty `call_no`, and a row was written, so neither arm of the
claimed disjunction holds. -/
theorem addPostRevA_claim_cex :
    (addPostRevA parseSome svcNoCall [] (some "0380807343")).1 =
      [⟨"0380807343", "Lirael", "Nix, Garth|Williams, S.", ""⟩] ∧
    (addPostRevA parseSome svcNoCall [] (some "0380807343")).2 =
      some (.page ⟨"0380807343", "Lirael", "Nix, Garth|Williams, S.", ""⟩) := by
  constructor <;> decide

/-- C2 amended: for every POST to `/add` (first `app.ts` revision) with a
truthy `isbn` field parsed as ISBN-10 or ISBN-13, either the classifier
returns a non-empty title and the book (title non-empty, `call_no`
possibly empty) is rendered and inserted unless a row with its ISBN
already exists, or the classifier returns an empty title and the book is
rendered with no row written; for any ISBN the row count changes by
exactly 0 or 1, never more. -/
theorem addPostRevA_amended (parse : String → Option ParsedIsbn)
    (svc : ClassifySvc) (db : List BookA) (isbnF : Option String)
    (s : String) :
    (countIsbnA (addPostRevA parse svc db isbnF).1 s = countIsbnA db s ∨
      countIsbnA (addPostRevA parse svc db isbnF).1 s = countIsbnA db s + 1) ∧
    (∀ p, tval isbnF = true → parse (isbnF.getD "") = some p →
      (p.isIsbn10 || p.isIsbn13) = true →
      (((svc.onIsbn (isbnF.getD "")).title ≠ "" →
        (addPostRevA parse svc db isbnF).1 = insertBookA db
          { isbn := isbnF.getD "", title := (svc.onIsbn (isbnF.getD "")).title,
            author := (svc.onIsbn (isbnF.getD "")).author,
            call_no := (svc.onIsbn (isbnF.getD "")).congress } ∧
        (addPostRevA parse svc db isbnF).2 = some (.page
          { isbn := isbnF.getD "", title := (svc.onIsbn (isbnF.getD "")).title,
            author := (svc.onIsbn (isbnF.getD "")).author,
            call_no := (svc.onIsbn (isbnF.getD "")).congress })) ∧
      ((svc.onIsbn (isbnF.getD "")).title = "" →
        (addPostRevA parse svc db isbnF).1 = db ∧
        (addPostRevA parse svc db isbnF).2 = some (.page
          { isbn := isbnF.getD "", title := (svc.onIsbn (isbnF.getD "")).title,
            author := (svc.onIsbn (isbnF.getD "")).author,
            call_no := (svc.onIsbn (isbnF.getD "")).congress })))) := by
  constructor
  · unfold addPostRevA
    split
    · cases hp : parse (isbnF.getD "") with
      | none => simp
      | some p =>
        simp only []
        split
        · split
          · exact countIsbnA_insert db _ s
          · exact Or.inl rfl
        · exact Or.inl rfl
    · exact Or.inl rfl
  · intro p hi hp h1013
    constructor
    · intro ht
      simp only [addPostRevA, hi, hp, h1013, if_true]
      rw [if_pos ht]
      exact ⟨rfl, rfl⟩
    · intro ht
      simp only [addPostRevA, hi, hp, h1013, if_true]
      rw [if_neg (by simp [ht])]
      exact ⟨rfl, rfl⟩

/-- C2 witness: on an empty table a successful classification stores and
renders exactly one row. -/
theorem addPostRevA_amended_witness :
    (addPostRevA parseSome svcHit [] (some "0380807343")).1 =
      insertBookA []
        ⟨"0380807343", "Lirael", "Nix, Garth|Williams, S.", "PZ7.N647"⟩ ∧
    (addPostRevA parseSome svcHit [] (some "0380807343")).2 =
      some (.page ⟨"0380807343", "Lirael", "Nix, Garth|Williams, S.", "PZ7.N647"⟩) :=
  ((addPostRevA_amended parseSome svcHit [] (some "0380807343")
    "0380807343").2 ⟨"9780380807345", true, false⟩ (by decide) rfl
    (by decide)).1 (by decide)

/-! ## C4: `/route` filters by username but does not order by call number -/

/-- C4 counterexample: in the latest revision `GET /route` runs
`SELECT * FROM booklist WHERE username = $1` with no `ORDER BY`, so on a
table where the cookie owner's rows sit in reverse call-number order the
rendered list is exactly those rows in table order — not ordered by call
number. -/
theorem routeGet_unordered_cex :
    routeGet [⟨"i1", "t1", "a1", "ZZ", "u"⟩, ⟨"i2", "t2", "a2", "AA", "u"⟩]
        (some "u") =
      [⟨"i1", "t1", "a1", "ZZ", "u"⟩, ⟨"i2", "t2", "a2", "AA", "u"⟩] ∧
    ¬ List.Sorted (fun x y : Book => x.call_no ≤ y.call_no)
      (routeGet [⟨"i1", "t1", "a1", "ZZ", "u"⟩, ⟨"i2", "t2", "a2", "AA", "u"⟩]
        (some "u")) := by
  constructor
  · decide
  · intro hs
    rw [show routeGet [⟨"i1", "t1", "a1", "ZZ", "u"⟩, ⟨"i2", "t2", "a2", "AA", "u"⟩]
        (some "u") =
        [⟨"i1", "t1", "a1", "ZZ", "u"⟩, ⟨"i2", "t2", "a2", "AA", "u"⟩] from by decide] at hs
    have h := List.rel_of_sorted_cons hs ⟨"i2", "t2", "a2", "AA", "u"⟩ (by simp)
    rw [show (⟨"i1", "t1", "a1", "ZZ", "u"⟩ : Book).call_no = "ZZ" from rfl,
      show (⟨"i2", "t2", "a2", "AA", "u"⟩ : Book).call_no = "AA" from rfl,
      String.le_iff_toList_le] at h
    revert h
    decide

/-- C4 amended: in the latest revision `GET /route` renders exactly the
rows whose `username` matches the cookie in their stored order (no
call-number ordering, and no rows at all without a cookie), while the
first `app.ts` revision renders the whole table ordered by `call_no`
without any username filter (a permutation of the table sorted by the
string order of `call_no`). -/
theorem route_filter_and_order_by_revision (db : List Book)
    (dbA : List BookA) (n : String) :
    ((∀ b, b ∈ routeGet db (some n) ↔ b ∈ db ∧ b.username = n) ∧
      (routeGet db (some n)).Sublist db ∧
      routeGet db none = []) ∧
    (List.Sorted (fun x y : BookA => x.call_no ≤ y.call_no) (routeGetRevA dbA) ∧
      (routeGetRevA dbA).Perm dbA) := by
  refine ⟨⟨fun b => ?_, ?_, rfl⟩, ?_, ?_⟩
  · simp [routeGet, List.mem_filter]
  · exact List.filter_sublist db
  · exact List.sorted_insertionSort _ dbA
  · exact List.perm_insertionSort _ dbA

/-! ## C8: `/api/books` and the missing `name` parameter -/

/-- C8 counterexample: a `GET /api/books` with no `name` query parameter
does not get the explicit `No Username Provided` payload — the
`req.query.name.length` check throws a `TypeError` on `undefined`, and
the `catch` answers with the generic `{"Error": err}` payload instead. -/
theorem apiBooks_no_param_cex :
    apiBooks [] none = .caughtError ∧ apiBooks [] none ≠ .noUsername := by
  constructor
  · rfl
  · decide

/-- C8 amended: `GET /api/books` with a non-empty `name` parameter
returns the JSON list of exactly the rows owned by that username; with an
empty `name` parameter it returns the explicit `No Username Provided`
payload; with no `name` parameter at all the handler's length check
throws inside the `try` and the `catch` answers with the generic
`{"Error": err}` JSON payload — in every case a JSON response is sent and
nothing escapes the handler. -/
theorem apiBooks_responses (db : List Book) (qname : Option String) :
    (∀ n, qname = some n → 0 < n.length →
      apiBooks db qname = .results (db.filter (fun b => b.username == n)) ∧
      (∀ b, b ∈ db.filter (fun b => b.username == n) ↔ b ∈ db ∧ b.username = n)) ∧
    (qname = some "" → apiBooks db qname = .noUsername) ∧
    (qname = none → apiBooks db qname = .caughtError) := by
  refine ⟨?_, ?_, ?_⟩
  · intro n hq hn
    subst hq
    constructor
    · simp [apiBooks, hn]
    · intro b
      simp [List.mem_filter]
  · intro hq
    subst hq
    rfl
  · intro hq
    subst hq
    rfl

/-- C8 witness: a concrete one-row table queried with its owner's name
returns exactly that row list. -/
theorem apiBooks_responses_witness :
    apiBooks [⟨"i", "t", "a", "c", "u"⟩] (some "u") =
      .results ([⟨"i", "t", "a", "c", "u"⟩].filter (fun b => b.username == "u")) :=
  ((apiBooks_responses [⟨"i", "t", "a", "c", "u"⟩] (some "u")).1 "u" rfl
    (by decide)).1
